import Mathlib

set_option linter.unusedVariables false
set_option linter.unusedTactic false

/-!
Shallow embedding of the Smart-Toaster control core.

The embedding follows the richest revision of the repository
(`process_cycle`, `handle_*_button`, `button_update`, `beep` and `main`'s
control loop).  Pure data and control flow are translated directly; the
hardware collaborators at the interface boundary are abstracted as state
fields and per-tick inputs:

* GPIO relay / buzzer writes become the `relay` / `Audio.buzzer` fields;
* `absolute_time_t` values become an `Int` millisecond clock, with
  `nil_time` modelled as `Option.none` for the screen-timeout deadline;
* the rate-limited temperature sensor (`update_temp`) becomes a per-tick
  `Option Int` input (`none` = rate-limited, keep previous value),
  matching the "reuse last value" interface contract;
* the one-shot buzzer-off alarm (`add_alarm_in_ms` / `beep_callback`)
  becomes an `Option Int` deadline fired when the clock passes it;
* temperatures are exact quarter-degree fixed point (`Int`, unit
  0.25 °C): the sensor computes `current_temp = raw * 0.25f`, so every
  temperature the code ever compares is an exact multiple of 0.25 °C,
  `temp_target` is a whole-°C `int`, and the band is 2.5 °C = 10 quarter
  degrees — hence every float comparison in the source is mirrored
  exactly by the corresponding integer comparison in quarter-degree
  units; the float→int cast in the Fahrenheit→Celsius conversion is
  modelled as truncating integer division;
* LCD rendering is external (display bytes are not control state); the
  mode-indexed string-table lookups that `draw_lcd` performs are modelled
  by `List.get?` so that their in-boundedness can be stated.
-/

namespace SmartToaster

/-- Constant `SCREEN_TIMEOUT` = 30000 ms. -/
def SCREEN_TIMEOUT : Int := 30000

/-- Constant `TOAST_TIME_INC` = 15 s. -/
def TOAST_TIME_INC : Int := 15

/-- Constant `BAKE_TIME_INC` = 30 s. -/
def BAKE_TIME_INC : Int := 30

/-- Constant `BAKE_TEMP_INC` = 25 °F. -/
def BAKE_TEMP_INC : Int := 25

/-- Constant `TEMP_HYSTERESIS` = 2.5 °C, i.e. 10 quarter-degrees. -/
def TEMP_HYSTERESIS_Q4 : Int := 10

/-- Whole °C to quarter-degree units. -/
def q4 (celsius : Int) : Int := 4 * celsius

/-- Constant `LONG_PRESS_MS` = 200 ms. -/
def LONG_PRESS_MS : Int := 200

/-- Constant `ACTION_BEEP_LENGTH` = 50 ms. -/
def ACTION_BEEP_LENGTH : Int := 50

/-- Constant `START_BEEP_LENGTH` = 200 ms. -/
def START_BEEP_LENGTH : Int := 200

/-- Constant `COMPLETE_BEEP_LENGTH` = 500 ms. -/
def COMPLETE_BEEP_LENGTH : Int := 500

/-- The `modes[]` string table (idle top line per mode). -/
def modes : List String :=
  ["     Toast      ", "      Bake      ", "    Passthru    "]

/-- The `running_modes[]` string table (running top line per mode). -/
def running_modes : List String :=
  ["  Toasting...   ", "   Baking...    ", "    Passthru    "]

/-- The source's `struct ButtonState` (the `pin` field is hardware identity and is
dropped; `cur` already denotes the debounced active level, i.e. the
result of `!gpio_get(pin)`). -/
structure ButtonState where
  prev : Bool
  cur : Bool
  stale : Bool
  press_time_ms : Int
deriving DecidableEq

/-- Function `button_init`: all-false, zero hold time. -/
def button_init : ButtonState :=
  { prev := false, cur := false, stale := false, press_time_ms := 0 }

/-- Function `button_update(b, delta_ms)` with the raw active-level read `raw`
passed in: shift `cur` into `prev`, latch the new read, keep `stale`
only while the previous read was pressed, and accumulate or reset the
hold time. -/
def button_update (b : ButtonState) (raw : Bool) (delta_ms : Int) : ButtonState :=
  { prev := b.cur
    cur := raw
    stale := b.stale && b.cur
    press_time_ms := if raw then b.press_time_ms + delta_ms else 0 }

/-- Audio scheduler state: the `beeping` flag, the buzzer output line,
and the pending one-shot buzzer-off alarm deadline (`none` = no alarm
armed). -/
structure Audio where
  beeping : Bool
  buzzer : Bool
  alarm : Option Int
deriving DecidableEq

/-- Function `beep(ms, synchronus)` at clock time `now`.  A request while a pulse
is active is dropped.  A synchronous pulse drives the buzzer high, blocks
for `ms`, and drives it low inline (net end state: buzzer off, flags
untouched).  An asynchronous pulse drives the buzzer high, sets
`beeping`, and arms the one-shot off alarm `ms` from now. -/
def beep (a : Audio) (now ms : Int) (synchronus : Bool) : Audio :=
  if a.beeping then a
  else if synchronus then { a with buzzer := false }
  else { beeping := true, buzzer := true, alarm := some (now + ms) }

/-- Function `beep_callback`: the one-shot alarm handler drops the buzzer line,
clears `beeping`, and cancels the alarm. -/
def beep_callback (_a : Audio) : Audio :=
  { beeping := false, buzzer := false, alarm := none }

/-- The expression `(int)((float)(bake_temp - 32) * (5.0f / 9.0f))` — Fahrenheit to
Celsius with the float→int cast modelled as truncating division. -/
def bakeTempTargetC (bake_temp : Int) : Int :=
  ((bake_temp - 32) * 5) / 9

/-- The full control-loop state: mode/settings store, run state,
thermostat inputs and outputs, screen power management, audio scheduler
and the four button records, plus the millisecond clock abstracting
`get_absolute_time`. -/
structure LoopState where
  mode : Nat
  setting_option : Nat
  running : Bool
  heating_stage : Nat
  prev_heating_stage : Nat
  toast_time : Int
  bake_time : Int
  bake_temp : Int
  time_target : Int
  temp_target : Int
  current_temp : Int
  relay : Bool
  backlightEnabled : Bool
  screen_timeout : Option Int
  clock : Int
  audio : Audio
  mode_btn : ButtonState
  up_btn : ButtonState
  down_btn : ButtonState
  start_btn : ButtonState
deriving DecidableEq

/-- The assignment `*mode = ++(*mode) % (sizeof(modes)/sizeof(modes[0]))` on a
`uint8_t`: increment wraps at 256 before the modulo by 3. -/
def cycleModeVal (m : Nat) : Nat := ((m + 1) % 256) % 3

/-- Function `handle_mode_button`: on a press edge while not running, a nil
screen deadline means the press only wakes the display and re-arms the
deadline; otherwise re-arm, advance the mode with wraparound, reset the
setting option and request a short action beep. -/
def handle_mode_button (s : LoopState) : LoopState :=
  if s.mode_btn.cur = true ∧ s.mode_btn.prev = false ∧ s.running = false then
    if s.screen_timeout = none then
      { s with backlightEnabled := true
               screen_timeout := some (s.clock + SCREEN_TIMEOUT) }
    else
      { s with screen_timeout := some (s.clock + SCREEN_TIMEOUT)
               mode := cycleModeVal s.mode
               setting_option := 0
               audio := beep s.audio s.clock ACTION_BEEP_LENGTH false }
  else s

/-- Function `handle_up_button`: long press in Bake mode toggles the setting
option and marks the press consumed; a press edge either wakes the
screen (consuming the press via `stale`) or re-arms the deadline and
beeps; a short-press release either wakes the screen or re-arms and
bumps the active setting, clamped at its upper bound. -/
def handle_up_button (s : LoopState) : LoopState :=
  if s.mode = 1 ∧ s.up_btn.stale = false ∧ LONG_PRESS_MS ≤ s.up_btn.press_time_ms
      ∧ s.running = false then
    { s with setting_option := (s.setting_option + 1) % 2
             up_btn := { s.up_btn with stale := true } }
  else if s.up_btn.cur = true ∧ s.up_btn.prev = false then
    if s.screen_timeout = none then
      { s with backlightEnabled := true
               screen_timeout := some (s.clock + SCREEN_TIMEOUT)
               up_btn := { s.up_btn with stale := true } }
    else
      { s with screen_timeout := some (s.clock + SCREEN_TIMEOUT)
               audio := beep s.audio s.clock ACTION_BEEP_LENGTH false }
  else if s.up_btn.cur = false ∧ s.up_btn.prev = true ∧ s.up_btn.stale = false
      ∧ s.running = false then
    if s.screen_timeout = none then
      { s with backlightEnabled := true
               screen_timeout := some (s.clock + SCREEN_TIMEOUT) }
    else if s.mode = 0 then
      { s with screen_timeout := some (s.clock + SCREEN_TIMEOUT)
               toast_time := min (s.toast_time + TOAST_TIME_INC) 600 }
    else if s.mode = 1 then
      if s.setting_option = 0 then
        { s with screen_timeout := some (s.clock + SCREEN_TIMEOUT)
                 bake_temp := min (s.bake_temp + BAKE_TEMP_INC) 500 }
      else
        { s with screen_timeout := some (s.clock + SCREEN_TIMEOUT)
                 bake_time := min (s.bake_time + BAKE_TIME_INC) 1200 }
    else
      { s with screen_timeout := some (s.clock + SCREEN_TIMEOUT) }
  else s

/-- Function `handle_down_button`: on a press edge while not running, wake the
screen if it was off; otherwise re-arm the deadline, decrement the
active setting clamped at its lower bound, and beep. -/
def handle_down_button (s : LoopState) : LoopState :=
  if s.down_btn.cur = true ∧ s.down_btn.prev = false ∧ s.running = false then
    if s.screen_timeout = none then
      { s with backlightEnabled := true
               screen_timeout := some (s.clock + SCREEN_TIMEOUT) }
    else if s.mode = 0 then
      { s with screen_timeout := some (s.clock + SCREEN_TIMEOUT)
               toast_time := max (s.toast_time - TOAST_TIME_INC) 30
               audio := beep s.audio s.clock ACTION_BEEP_LENGTH false }
    else if s.mode = 1 then
      if s.setting_option = 0 then
        { s with screen_timeout := some (s.clock + SCREEN_TIMEOUT)
                 bake_temp := max (s.bake_temp - BAKE_TEMP_INC) 50
                 audio := beep s.audio s.clock ACTION_BEEP_LENGTH false }
      else
        { s with screen_timeout := some (s.clock + SCREEN_TIMEOUT)
                 bake_time := max (s.bake_time - BAKE_TIME_INC) 30
                 audio := beep s.audio s.clock ACTION_BEEP_LENGTH false }
    else
      { s with screen_timeout := some (s.clock + SCREEN_TIMEOUT)
               audio := beep s.audio s.clock ACTION_BEEP_LENGTH false }
  else s

/-- Function `handle_start_button`: on a press edge, a nil deadline while idle
only wakes the screen.  Otherwise toggle `running` and beep.  Starting a
cycle clears the idle deadline (the intermediate re-arm in the source is
immediately overwritten by `nil_time`), records the mode's targets and
the initial heating stage (`mode == 0 ? 2 : 0`).  Stopping forces the
relay off and re-arms the idle deadline. -/
def handle_start_button (s : LoopState) : LoopState :=
  if s.start_btn.cur = true ∧ s.start_btn.prev = false then
    if s.running = false ∧ s.screen_timeout = none then
      { s with backlightEnabled := true
               screen_timeout := some (s.clock + SCREEN_TIMEOUT) }
    else if s.running = false then
      { s with running := true
               audio := beep s.audio s.clock START_BEEP_LENGTH false
               screen_timeout := none
               temp_target := if s.mode = 1 then bakeTempTargetC s.bake_temp else 260
               time_target := (if s.mode = 0 then s.toast_time else s.bake_time) * 1000
               heating_stage := if s.mode = 0 then 2 else 0 }
    else
      { s with running := false
               audio := beep s.audio s.clock ACTION_BEEP_LENGTH false
               relay := false
               screen_timeout := some (s.clock + SCREEN_TIMEOUT) }
  else s

/-- Function `process_cycle` (called only while `running`): advance
Preheating→Ready when the temperature enters the band, Ready→Cooking on
a Mode-button press edge, run the two-point hysteresis thermostat on the
relay, and on countdown expiry force the relay off, stop the cycle, play
the three-pulse synchronous completion sequence and re-arm the idle
deadline. -/
def process_cycle (s : LoopState) : LoopState :=
  let s := { s with prev_heating_stage := s.heating_stage }
  let s :=
    if s.heating_stage = 0 ∧ q4 s.temp_target - TEMP_HYSTERESIS_Q4 ≤ s.current_temp then
      { s with heating_stage := 1, audio := beep s.audio s.clock 500 false }
    else s
  let s :=
    if s.heating_stage = 1 ∧ s.mode_btn.cur = true ∧ s.mode_btn.prev = false then
      { s with audio := beep s.audio s.clock ACTION_BEEP_LENGTH false
               heating_stage := 2 }
    else s
  let s :=
    if s.current_temp ≤ q4 s.temp_target - TEMP_HYSTERESIS_Q4 then
      { s with relay := true }
    else if q4 s.temp_target + TEMP_HYSTERESIS_Q4 ≤ s.current_temp then
      { s with relay := false }
    else s
  if s.time_target ≤ 0 then
    { s with relay := false
             running := false
             audio := beep (beep (beep s.audio s.clock COMPLETE_BEEP_LENGTH true)
                              s.clock COMPLETE_BEEP_LENGTH true)
                        s.clock COMPLETE_BEEP_LENGTH true
             screen_timeout := some (s.clock + SCREEN_TIMEOUT) }
  else s

/-- The statement `time_target -= delta_ms * (heating_stage == 2)` — the countdown
decrement at the end of the running branch of the main loop. -/
def countdown_step (s : LoopState) (delta_ms : Int) : LoopState :=
  { s with time_target :=
      s.time_target - delta_ms * (if s.heating_stage = 2 then 1 else 0) }

/-- Per-tick environment inputs: the four raw active-level button reads,
the optional fresh temperature sample in quarter-degrees (`none` when
the sensor read is rate-limited and the last value is reused), the measured elapsed time
fed to `button_update`, and the re-measured elapsed time used by the
countdown decrement. -/
structure TickInput where
  mode_raw : Bool
  up_raw : Bool
  down_raw : Bool
  start_raw : Bool
  new_temp : Option Int
  delta_btn : Int
  delta_cook : Int

/-- The test `!is_nil_time(t) && absolute_time_min(now, t) == t`: a non-nil
deadline that is not in the future. -/
def deadline_passed (o : Option Int) (now : Int) : Bool :=
  match o with
  | some d => decide (d ≤ now)
  | none => false

/-- Fire the pending buzzer-off one-shot alarm if its deadline has
passed. -/
def fire_alarm (s : LoopState) : LoopState :=
  if deadline_passed s.audio.alarm s.clock then
    { s with audio := beep_callback s.audio }
  else s

/-- The input phase of one main-loop iteration: advance the clock by the
measured delta, deliver the pending alarm, expire the screen deadline
(turning the backlight off), refresh the temperature if a new sample is
available, and run `button_update` on all four buttons. -/
def tick_inputs (s : LoopState) (i : TickInput) : LoopState :=
  let s := { s with clock := s.clock + i.delta_btn }
  let s := fire_alarm s
  let s :=
    if deadline_passed s.screen_timeout s.clock then
      { s with screen_timeout := none, backlightEnabled := false }
    else s
  let s := { s with current_temp := i.new_temp.getD s.current_temp }
  { s with mode_btn := button_update s.mode_btn i.mode_raw i.delta_btn
           up_btn := button_update s.up_btn i.up_raw i.delta_btn
           down_btn := button_update s.down_btn i.down_raw i.delta_btn
           start_btn := button_update s.start_btn i.start_raw i.delta_btn }

/-- The four button handlers in main-loop order. -/
def handle_buttons (s : LoopState) : LoopState :=
  handle_start_button (handle_down_button (handle_up_button (handle_mode_button s)))

/-- One full iteration of the `while (true)` control loop.  The
`if (running)` check happens after the handlers, so a cycle started by
this very tick is already processed, and the countdown decrement still
runs when `process_cycle` has just cleared `running` (the block was
already entered). -/
def tick (s : LoopState) (i : TickInput) : LoopState :=
  let s := handle_buttons (tick_inputs s i)
  if s.running = true then countdown_step (process_cycle s) i.delta_cook
  else s

/-- The state of `main` right before entering the loop: mode 0, not running,
settings at their compiled-in initial values (`toast_time = 10`,
`bake_time = 300`, `bake_temp = 82`), `current_temp = -1` °C, screen
deadline armed, backlight on, relay and buzzer low. -/
def initState : LoopState :=
  { mode := 0
    setting_option := 0
    running := false
    heating_stage := 0
    prev_heating_stage := 0
    toast_time := 10
    bake_time := 300
    bake_temp := 82
    time_target := 0
    temp_target := 0
    current_temp := -4
    relay := false
    backlightEnabled := true
    screen_timeout := some SCREEN_TIMEOUT
    clock := 0
    audio := { beeping := false, buzzer := false, alarm := none }
    mode_btn := button_init
    up_btn := button_init
    down_btn := button_init
    start_btn := button_init }

/-- Run the control loop over a list of per-tick inputs. -/
def runTicks (s : LoopState) (l : List TickInput) : LoopState :=
  l.foldl tick s

/-- The `draw_lcd` top line: the `modes[mode]` lookup while idle, the
`running_modes[mode]` lookup while running outside Bake mode, and the
heating-stage switch in Bake mode (an out-of-range stage falls through
the switch printing nothing). -/
def draw_lcd_top (s : LoopState) : Option String :=
  if s.running = false then modes.get? s.mode
  else if s.mode ≠ 1 then running_modes.get? s.mode
  else
    match s.heating_stage with
    | 0 => some " Preheating...  "
    | 1 => some "Ready:Press MODE"
    | 2 => running_modes.get? s.mode
    | _ => some ""


/-! ### Basic facts about the loop runner -/

theorem runTicks_nil (s : LoopState) : runTicks s [] = s := rfl

theorem runTicks_cons (s : LoopState) (i : TickInput) (l : List TickInput) :
    runTicks s (i :: l) = runTicks (tick s i) l := rfl

theorem runTicks_append (s : LoopState) (l₁ l₂ : List TickInput) :
    runTicks s (l₁ ++ l₂) = runTicks (runTicks s l₁) l₂ :=
  List.foldl_append _ _ _ _

/-! ### Field-preservation facts for the tick phases -/

theorem tick_inputs_running (s : LoopState) (i : TickInput) :
    (tick_inputs s i).running = s.running := by
  simp only [tick_inputs, fire_alarm]
  split_ifs <;> rfl

theorem tick_inputs_relay (s : LoopState) (i : TickInput) :
    (tick_inputs s i).relay = s.relay := by
  simp only [tick_inputs, fire_alarm]
  split_ifs <;> rfl

theorem tick_inputs_mode (s : LoopState) (i : TickInput) :
    (tick_inputs s i).mode = s.mode := by
  simp only [tick_inputs, fire_alarm]
  split_ifs <;> rfl

theorem handle_mode_button_running (s : LoopState) :
    (handle_mode_button s).running = s.running := by
  simp only [handle_mode_button]
  split_ifs <;> rfl

theorem handle_mode_button_relay (s : LoopState) :
    (handle_mode_button s).relay = s.relay := by
  simp only [handle_mode_button]
  split_ifs <;> rfl

theorem handle_up_button_running (s : LoopState) :
    (handle_up_button s).running = s.running := by
  simp only [handle_up_button]
  split_ifs <;> rfl

theorem handle_up_button_relay (s : LoopState) :
    (handle_up_button s).relay = s.relay := by
  simp only [handle_up_button]
  split_ifs <;> rfl

theorem handle_up_button_mode (s : LoopState) :
    (handle_up_button s).mode = s.mode := by
  simp only [handle_up_button]
  split_ifs <;> rfl

theorem handle_down_button_running (s : LoopState) :
    (handle_down_button s).running = s.running := by
  simp only [handle_down_button]
  split_ifs <;> rfl

theorem handle_down_button_relay (s : LoopState) :
    (handle_down_button s).relay = s.relay := by
  simp only [handle_down_button]
  split_ifs <;> rfl

theorem handle_down_button_mode (s : LoopState) :
    (handle_down_button s).mode = s.mode := by
  simp only [handle_down_button]
  split_ifs <;> rfl

theorem handle_start_button_mode (s : LoopState) :
    (handle_start_button s).mode = s.mode := by
  simp only [handle_start_button]
  split_ifs <;> rfl

theorem process_cycle_mode (s : LoopState) :
    (process_cycle s).mode = s.mode := by
  simp only [process_cycle]
  split_ifs <;> rfl

theorem process_cycle_time_target (s : LoopState) :
    (process_cycle s).time_target = s.time_target := by
  simp only [process_cycle]
  split_ifs <;> rfl

theorem countdown_step_mode (s : LoopState) (d : Int) :
    (countdown_step s d).mode = s.mode := rfl

/-- The end-of-tick relay value produced by the thermostat block of
`process_cycle` on a non-completion tick: ON at or below the lower
threshold, OFF at or above the upper threshold, otherwise unchanged. -/
theorem process_cycle_relay_eq (s : LoopState) (ht : 0 < s.time_target) :
    (process_cycle s).relay =
      (if s.current_temp ≤ q4 s.temp_target - TEMP_HYSTERESIS_Q4 then true
       else if q4 s.temp_target + TEMP_HYSTERESIS_Q4 ≤ s.current_temp then false
       else s.relay) := by
  have h : ¬ s.time_target ≤ 0 := by omega
  simp only [process_cycle]
  split_ifs <;> simp_all

/-- The completion branch of `process_cycle`: relay forced off, cycle
stopped, idle deadline re-armed. -/
theorem process_cycle_complete (s : LoopState) (ht : s.time_target ≤ 0) :
    (process_cycle s).relay = false ∧ (process_cycle s).running = false ∧
    (process_cycle s).screen_timeout = some (s.clock + SCREEN_TIMEOUT) := by
  simp only [process_cycle]
  split_ifs <;> simp_all

/-- Outside the completion branch `process_cycle` leaves `running`
untouched. -/
theorem process_cycle_running_of_pos (s : LoopState) (ht : 0 < s.time_target) :
    (process_cycle s).running = s.running := by
  have h : ¬ s.time_target ≤ 0 := by omega
  simp only [process_cycle]
  split_ifs <;> simp_all

/-! ### C1 — two-point thermostat hysteresis -/

/-- C1: On every tick processed while `running = true` that is not the
completion tick (`0 < time_target`; completion separately forces the
relay off, see C3), the thermostat block of `process_cycle` commands the
relay ON when the sampled temperature is at most
`temp_target - TEMP_HYSTERESIS`, commands it OFF when the temperature is
at least `temp_target + TEMP_HYSTERESIS`, and keeps the prior commanded
state for every temperature strictly inside the band; consequently a
relay that is ON stays ON while the temperature is below
`target + band` and a relay that is OFF stays OFF while the temperature
is above `target - band`, so it never toggles on a reading strictly
inside the band.  (Temperatures are in exact quarter-degree units:
`q4 t = 4 * t` and the 2.5 °C band is `TEMP_HYSTERESIS_Q4 = 10`.) -/
theorem c1_thermostat_hysteresis (s : LoopState)
    (hrun : s.running = true) (ht : 0 < s.time_target) :
    (s.current_temp ≤ q4 s.temp_target - TEMP_HYSTERESIS_Q4 →
      (process_cycle s).relay = true) ∧
    (q4 s.temp_target + TEMP_HYSTERESIS_Q4 ≤ s.current_temp →
      (process_cycle s).relay = false) ∧
    (q4 s.temp_target - TEMP_HYSTERESIS_Q4 < s.current_temp →
      s.current_temp < q4 s.temp_target + TEMP_HYSTERESIS_Q4 →
      (process_cycle s).relay = s.relay) ∧
    (s.relay = true → s.current_temp < q4 s.temp_target + TEMP_HYSTERESIS_Q4 →
      (process_cycle s).relay = true) ∧
    (s.relay = false → q4 s.temp_target - TEMP_HYSTERESIS_Q4 < s.current_temp →
      (process_cycle s).relay = false) := by
  rw [process_cycle_relay_eq s ht]
  have hband : TEMP_HYSTERESIS_Q4 = 10 := rfl
  refine ⟨fun h1 => ?_, fun h2 => ?_, fun h3 h4 => ?_, fun h5 h6 => ?_, fun h7 h8 => ?_⟩
  · rw [if_pos h1]
  · rw [if_neg (by omega), if_pos h2]
  · rw [if_neg (by omega), if_neg (by omega)]
  · by_cases hlow : s.current_temp ≤ q4 s.temp_target - TEMP_HYSTERESIS_Q4
    · rw [if_pos hlow]
    · rw [if_neg hlow, if_neg (by omega)]; exact h5
  · rw [if_neg (by omega)]
    by_cases hhigh : q4 s.temp_target + TEMP_HYSTERESIS_Q4 ≤ s.current_temp
    · rw [if_pos hhigh]
    · rw [if_neg hhigh]; exact h7

/-- A cooking-phase state used to instantiate C1: target 260 °C, reading
25 °C (100 quarter-degrees), relay still off. -/
def thermoProbeState : LoopState :=
  { initState with running := true, heating_stage := 2, prev_heating_stage := 2
                   time_target := 5000, temp_target := 260, current_temp := 100
                   relay := false, screen_timeout := none, clock := 100 }

theorem c1_thermostat_hysteresis_witness :
    (process_cycle thermoProbeState).relay = true ∧
    (process_cycle { thermoProbeState with current_temp := 1050 }).relay = false ∧
    (process_cycle { thermoProbeState with current_temp := 1035, relay := true }).relay = true := by
  refine ⟨(c1_thermostat_hysteresis thermoProbeState rfl (by decide)).1 (by decide),
          (c1_thermostat_hysteresis { thermoProbeState with current_temp := 1050 } rfl
            (by decide)).2.1 (by decide),
          (c1_thermostat_hysteresis { thermoProbeState with current_temp := 1035, relay := true }
            rfl (by decide)).2.2.2.1 rfl (by decide)⟩

/-! ### C3 — cycle completion forces the relay off -/

/-- Handler `handle_start_button` keeps the idle-relay invariant: if it leaves
(or puts) the unit not running, the relay is off provided it was off
whenever the unit was idle before. -/
theorem handle_start_button_idle_relay (s : LoopState)
    (h : s.running = false → s.relay = false) :
    (handle_start_button s).running = false → (handle_start_button s).relay = false := by
  simp only [handle_start_button]
  split_ifs <;> simp_all

/-- One full tick keeps the idle-relay invariant. -/
theorem tick_idle_relay (s : LoopState) (i : TickInput)
    (h : s.running = false → s.relay = false) :
    (tick s i).running = false → (tick s i).relay = false := by
  have h0 : (tick_inputs s i).running = false → (tick_inputs s i).relay = false := by
    rw [tick_inputs_running, tick_inputs_relay]; exact h
  have h1 : (handle_mode_button (tick_inputs s i)).running = false →
      (handle_mode_button (tick_inputs s i)).relay = false := by
    rw [handle_mode_button_running, handle_mode_button_relay]; exact h0
  have h2 : (handle_up_button (handle_mode_button (tick_inputs s i))).running = false →
      (handle_up_button (handle_mode_button (tick_inputs s i))).relay = false := by
    rw [handle_up_button_running, handle_up_button_relay]; exact h1
  have h3 : (handle_down_button (handle_up_button (handle_mode_button (tick_inputs s i)))).running = false →
      (handle_down_button (handle_up_button (handle_mode_button (tick_inputs s i)))).relay = false := by
    rw [handle_down_button_running, handle_down_button_relay]; exact h2
  have h4 := handle_start_button_idle_relay _ h3
  simp only [tick, handle_buttons]
  split_ifs with hr
  · -- running branch: countdown_step preserves both fields
    intro hfin
    by_cases hpos :
        0 < (handle_start_button (handle_down_button (handle_up_button
          (handle_mode_button (tick_inputs s i))))).time_target
    · exfalso
      have := process_cycle_running_of_pos _ hpos
      simp only [countdown_step] at hfin
      rw [hfin] at this
      rw [hr] at this
      exact Bool.false_ne_true this
    · have hle : (handle_start_button (handle_down_button (handle_up_button
          (handle_mode_button (tick_inputs s i))))).time_target ≤ 0 := by omega
      have := (process_cycle_complete _ hle).1
      simpa [countdown_step] using this
  · exact h4

/-- C3: on every tick processed with `running = true` in which
`time_target ≤ 0`, the relay output is forced OFF, `running` is cleared,
the three-pulse synchronous completion audio sequence is issued and the
screen idle deadline is re-armed; together with the forced-OFF of the
explicit Start-button stop this keeps the structural invariant that the
relay is never ON while the unit is not running, in every reachable
state of the control loop. -/
theorem c3_cycle_completion :
    (∀ s : LoopState, s.running = true → s.time_target ≤ 0 →
      (process_cycle s).relay = false ∧ (process_cycle s).running = false ∧
      (process_cycle s).screen_timeout = some (s.clock + SCREEN_TIMEOUT)) ∧
    (∀ s : LoopState, s.running = true → s.time_target ≤ 0 → s.heating_stage = 2 →
      (process_cycle s).audio =
        beep (beep (beep s.audio s.clock COMPLETE_BEEP_LENGTH true)
                s.clock COMPLETE_BEEP_LENGTH true)
          s.clock COMPLETE_BEEP_LENGTH true) ∧
    (∀ s : LoopState, s.start_btn.cur = true → s.start_btn.prev = false →
      s.running = true →
      (handle_start_button s).relay = false ∧ (handle_start_button s).running = false ∧
      (handle_start_button s).screen_timeout = some (s.clock + SCREEN_TIMEOUT)) ∧
    (∀ l : List TickInput,
      (runTicks initState l).running = false → (runTicks initState l).relay = false) := by
  refine ⟨fun s _ ht => process_cycle_complete s ht, fun s _ ht hstage => ?_, fun s hc hp hr => ?_, ?_⟩
  · simp only [process_cycle]
    split_ifs <;> simp_all
  · simp only [handle_start_button]
    rw [if_pos ⟨hc, hp⟩, if_neg (by simp [hr]), if_neg (by simp [hr])]
    exact ⟨rfl, rfl, rfl⟩
  · suffices hgen : ∀ (l : List TickInput) (s : LoopState),
        (s.running = false → s.relay = false) →
        ((runTicks s l).running = false → (runTicks s l).relay = false) by
      intro l
      exact hgen l initState (fun _ => rfl)
    intro l
    induction l with
    | nil => intro s h; exact h
    | cons i l ih =>
        intro s h
        rw [runTicks_cons]
        exact ih (tick s i) (tick_idle_relay s i h)

/-- A completion-tick state: cooking, countdown expired, relay still on. -/
def completionState : LoopState :=
  { initState with running := true, heating_stage := 2, prev_heating_stage := 2
                   time_target := 0, temp_target := 260, current_temp := 100
                   relay := true, screen_timeout := none, clock := 10020 }

/-- An explicit-stop state: running with a Start-button press edge. -/
def stopState : LoopState :=
  { initState with running := true, heating_stage := 2, prev_heating_stage := 2
                   time_target := 5000, temp_target := 260, current_temp := 100
                   relay := true, screen_timeout := none, clock := 4000
                   start_btn := { prev := false, cur := true, stale := false, press_time_ms := 20 } }

theorem c3_cycle_completion_witness :
    (process_cycle completionState).relay = false ∧
    (process_cycle completionState).running = false ∧
    (process_cycle completionState).audio =
      beep (beep (beep completionState.audio completionState.clock COMPLETE_BEEP_LENGTH true)
              completionState.clock COMPLETE_BEEP_LENGTH true)
        completionState.clock COMPLETE_BEEP_LENGTH true ∧
    (handle_start_button stopState).relay = false ∧
    (runTicks initState []).relay = false := by
  refine ⟨(c3_cycle_completion.1 completionState rfl (by decide)).1,
          (c3_cycle_completion.1 completionState rfl (by decide)).2.1,
          c3_cycle_completion.2.1 completionState rfl (by decide) rfl,
          (c3_cycle_completion.2.2.1 stopState rfl rfl rfl).1,
          c3_cycle_completion.2.2.2 [] rfl⟩

/-! ### C2 — settings bounds (violated by the compiled-in initial value) -/

/-- A two-tick trace: press the Up button for one tick and release it,
with the display awake throughout. -/
def upPressTrace : List TickInput :=
  [{ mode_raw := false, up_raw := true, down_raw := false, start_raw := false
     new_temp := none, delta_btn := 20, delta_cook := 20 },
   { mode_raw := false, up_raw := false, down_raw := false, start_raw := false
     new_temp := none, delta_btn := 20, delta_cook := 20 }]

/-- C2 (violation evidence): the control loop starts with
`toast_time = 10`, below the declared lower bound 30 of `[30, 600]`, and
one awake Up short-press moves it to 25, still below the bound — so the
bounds invariant fails on reachable states even though every adjustment
clamps (the Up path clamps only at 600 and the Down path jumps any
below-minimum value back up to 30). -/
theorem c2_toast_time_bounds_violation :
    runTicks initState [] = initState ∧
    initState.toast_time = 10 ∧
    ¬ (30 ≤ initState.toast_time ∧ initState.toast_time ≤ 600) ∧
    (runTicks initState upPressTrace).toast_time = 25 ∧
    ¬ (30 ≤ (runTicks initState upPressTrace).toast_time) := by
  refine ⟨rfl, rfl, by decide, by decide, by decide⟩

/-! ### C4 — cycle-start initialization (Passthru starts in Preheating) -/

/-- An idle, awake state in Passthru mode with a Start-button press
edge. -/
def passthruStartState : LoopState :=
  { initState with mode := 2
                   start_btn := { prev := false, cur := true, stale := false, press_time_ms := 20 } }

/-- C4 counterexample: a Start press edge in Passthru mode (mode 2,
not running, backlight on) starts the cycle with
`heating_stage = 0` (Preheating), not `2` (Cooking): the source computes
`heating_stage = mode == 0 ? 2 : 0`, so only Toast skips the preheat
stage, contradicting the claim that Passthru also starts in Cooking. -/
theorem c4_passthru_starts_preheating :
    passthruStartState.mode = 2 ∧
    passthruStartState.running = false ∧
    passthruStartState.start_btn.cur = true ∧
    passthruStartState.start_btn.prev = false ∧
    ¬ passthruStartState.screen_timeout = none ∧
    (handle_start_button passthruStartState).running = true ∧
    (handle_start_button passthruStartState).heating_stage = 0 ∧
    ¬ (handle_start_button passthruStartState).heating_stage = 2 := by
  decide

/-- C4 (amended): on every cycle start (Start press edge taking
`running` from false to true, display awake), `temp_target` and
`time_target` are computed from the active mode's settings
(`bake_temp` converted to Celsius for Bake, the fixed 260 °C target
otherwise; `toast_time` for Toast, `bake_time` otherwise) and the
heating stage is initialized to Cooking for Toast only — Bake and
Passthru both start in Preheating. -/
theorem c4_start_initialization (s : LoopState)
    (hc : s.start_btn.cur = true) (hp : s.start_btn.prev = false)
    (hr : s.running = false) (hst : ¬ s.screen_timeout = none) :
    (handle_start_button s).running = true ∧
    (handle_start_button s).temp_target =
      (if s.mode = 1 then bakeTempTargetC s.bake_temp else 260) ∧
    (handle_start_button s).time_target =
      (if s.mode = 0 then s.toast_time else s.bake_time) * 1000 ∧
    (handle_start_button s).heating_stage = (if s.mode = 0 then 2 else 0) := by
  simp only [handle_start_button]
  rw [if_pos ⟨hc, hp⟩, if_neg (by simp [hst]), if_pos hr]
  exact ⟨rfl, rfl, rfl, rfl⟩

/-- An idle, awake state in Toast mode with a Start-button press edge. -/
def toastStartState : LoopState :=
  { initState with start_btn := { prev := false, cur := true, stale := false, press_time_ms := 20 } }

theorem c4_start_initialization_witness :
    (handle_start_button toastStartState).running = true ∧
    (handle_start_button toastStartState).temp_target =
      (if toastStartState.mode = 1 then bakeTempTargetC toastStartState.bake_temp else 260) ∧
    (handle_start_button toastStartState).time_target =
      (if toastStartState.mode = 0 then toastStartState.toast_time else toastStartState.bake_time) * 1000 ∧
    (handle_start_button toastStartState).heating_stage =
      (if toastStartState.mode = 0 then 2 else 0) :=
  c4_start_initialization toastStartState rfl rfl rfl (by decide)

/-! ### C5 — countdown only decreases while Cooking -/

/-- Tick every 20 ms with the Start button pressed and a fresh 25 °C
(100 quarter-degree) sample. -/
def startTick : TickInput :=
  { mode_raw := false, up_raw := false, down_raw := false, start_raw := true
    new_temp := some 100, delta_btn := 20, delta_cook := 20 }

/-- Tick every 20 ms with no buttons pressed and no fresh sample. -/
def plainTick : TickInput :=
  { mode_raw := false, up_raw := false, down_raw := false, start_raw := false
    new_temp := none, delta_btn := 20, delta_cook := 20 }

/-- Starting a Toast cycle from the initial state (`toast_time = 10` s)
and then advancing the loop by 10,000 ms of elapsed tick time in 20 ms
ticks. -/
def toastTrace : List TickInput := startTick :: List.replicate 500 plainTick

/-- The steady mid-cycle shape of the Toast run: cooking at 25 °C
towards the fixed 260 °C target, relay on, screen deadline cleared, no
pending alarm; only the countdown and the clock vary. -/
def steadyCooking (t c : Int) : LoopState :=
  { mode := 0, setting_option := 0, running := true, heating_stage := 2
    prev_heating_stage := 2, toast_time := 10, bake_time := 300, bake_temp := 82
    time_target := t, temp_target := 260, current_temp := 100, relay := true
    backlightEnabled := true, screen_timeout := none, clock := c
    audio := { beeping := false, buzzer := false, alarm := none }
    mode_btn := button_init, up_btn := button_init
    down_btn := button_init, start_btn := button_init }

/-- One quiescent 20 ms cooking tick decrements the countdown by 20 and
advances the clock by 20. -/
theorem steady_tick (t c : Int) (ht : 0 < t) :
    tick (steadyCooking t c) plainTick = steadyCooking (t - 20) (c + 20) := by
  have h : ¬ (t ≤ 0) := not_le.mpr ht
  simp [tick, tick_inputs, fire_alarm, deadline_passed, handle_buttons, handle_mode_button,
        handle_up_button, handle_down_button, handle_start_button, process_cycle,
        countdown_step, button_update, button_init, beep, steadyCooking, plainTick, q4,
        TEMP_HYSTERESIS_Q4, LONG_PRESS_MS, h]

/-- As long as the countdown has not expired, quiescent cooking ticks
keep the steady shape. -/
theorem steady_run (n : Nat) : ∀ t c : Int, 20 * n ≤ t →
    runTicks (steadyCooking t c) (List.replicate n plainTick)
      = steadyCooking (t - 20 * n) (c + 20 * n) := by
  induction n with
  | zero => intro t c _; simp [runTicks]
  | succ k ih =>
      intro t c hle
      have h1 : (0:Int) < t := by
        have : (20:Int) * (k+1) = 20*k + 20 := by ring
        omega
      rw [List.replicate_succ, runTicks_cons, steady_tick t c h1,
          ih (t - 20) (c + 20) (by push_cast; omega)]
      congr 1 <;> push_cast <;> ring

set_option maxRecDepth 10000 in
/-- C5: the countdown decreases by the tick's measured elapsed duration
exactly when `heating_stage = 2` (Cooking) — `process_cycle` itself
never changes `time_target`, and the decrement
`time_target -= delta * (heating_stage == 2)` subtracts the full delta
in Cooking and nothing in Preheating/Ready; concretely, starting a
Toast cycle with `toast_time = 10` s and advancing the loop by
10,000 ms of 20 ms ticks ends the cycle
(`time_target ≤ 0`, `running = false`, relay OFF). -/
theorem c5_countdown_only_while_cooking :
    (∀ s : LoopState, (process_cycle s).time_target = s.time_target) ∧
    (∀ (s : LoopState) (d : Int), s.heating_stage = 2 →
      (countdown_step s d).time_target = s.time_target - d) ∧
    (∀ (s : LoopState) (d : Int), ¬ s.heating_stage = 2 →
      (countdown_step s d).time_target = s.time_target) ∧
    ((runTicks initState toastTrace).time_target ≤ 0 ∧
     (runTicks initState toastTrace).running = false ∧
     (runTicks initState toastTrace).relay = false) := by
  refine ⟨process_cycle_time_target, fun s d h => by simp [countdown_step, h],
          fun s d h => by simp [countdown_step, h], ?_⟩
  have hsplit : toastTrace =
      (startTick :: List.replicate 10 plainTick) ++
        (List.replicate 489 plainTick ++ List.replicate 1 plainTick) := by
    show startTick :: List.replicate 500 plainTick = _
    rw [show (500 : Nat) = 10 + (489 + 1) from rfl, List.replicate_add, List.replicate_add]
    exact (List.cons_append _ _ _).symm
  have h1 : runTicks initState (startTick :: List.replicate 10 plainTick)
      = steadyCooking 9780 220 := by decide
  have h2 : runTicks (steadyCooking 9780 220) (List.replicate 489 plainTick)
      = steadyCooking 0 10000 := by
    rw [steady_run 489 9780 220 (by norm_num)]
    norm_num
  have h3 : runTicks initState toastTrace
      = runTicks (steadyCooking 0 10000) (List.replicate 1 plainTick) := by
    rw [hsplit, runTicks_append, h1, runTicks_append, h2]
  rw [h3]
  decide

/-- A Preheating-stage state for the countdown witness. -/
def preheatProbeState : LoopState :=
  { initState with running := true, heating_stage := 0, time_target := 300000
                   temp_target := 176, current_temp := 100, screen_timeout := none }

theorem c5_countdown_only_while_cooking_witness :
    (countdown_step (steadyCooking 5000 100) 20).time_target
        = (steadyCooking 5000 100).time_target - 20 ∧
    (countdown_step preheatProbeState 20).time_target
        = preheatProbeState.time_target :=
  ⟨c5_countdown_only_while_cooking.2.1 (steadyCooking 5000 100) 20 rfl,
   c5_countdown_only_while_cooking.2.2.1 preheatProbeState 20 (by decide)⟩

/-! ### C6 — a wake press is consumed, the next press acts -/

/-- C6: a qualifying press edge arriving while the backlight is off
(screen deadline nil, unit idle) only turns the backlight on and
re-arms the idle deadline — no mode cycle, no settings adjustment, no
start toggle — and for the Up button the wake also consumes the pending
release via `stale`; a qualifying press arriving while the backlight is
on performs the button's normal action. -/
theorem c6_screen_wake_consumes_press (s : LoopState) :
    (s.mode_btn.cur = true → s.mode_btn.prev = false → s.running = false →
     s.screen_timeout = none →
      (handle_mode_button s).backlightEnabled = true ∧
      (handle_mode_button s).screen_timeout = some (s.clock + SCREEN_TIMEOUT) ∧
      (handle_mode_button s).mode = s.mode ∧
      (handle_mode_button s).setting_option = s.setting_option ∧
      (handle_mode_button s).audio = s.audio) ∧
    (s.mode_btn.cur = true → s.mode_btn.prev = false → s.running = false →
     ¬ s.screen_timeout = none →
      (handle_mode_button s).mode = cycleModeVal s.mode ∧
      (handle_mode_button s).setting_option = 0) ∧
    (s.up_btn.cur = true → s.up_btn.prev = false →
     s.up_btn.press_time_ms < LONG_PRESS_MS → s.running = false →
     s.screen_timeout = none →
      (handle_up_button s).backlightEnabled = true ∧
      (handle_up_button s).screen_timeout = some (s.clock + SCREEN_TIMEOUT) ∧
      (handle_up_button s).up_btn.stale = true ∧
      (handle_up_button s).toast_time = s.toast_time ∧
      (handle_up_button s).bake_temp = s.bake_temp ∧
      (handle_up_button s).bake_time = s.bake_time ∧
      (handle_up_button s).setting_option = s.setting_option) ∧
    (s.up_btn.cur = false → s.up_btn.prev = true → s.up_btn.stale = true →
      handle_up_button s = s) ∧
    (s.up_btn.cur = false → s.up_btn.prev = true → s.up_btn.stale = false →
     s.mode = 0 → s.running = false → ¬ s.screen_timeout = none →
      (handle_up_button s).toast_time = min (s.toast_time + TOAST_TIME_INC) 600) ∧
    (s.down_btn.cur = true → s.down_btn.prev = false → s.running = false →
     s.screen_timeout = none →
      (handle_down_button s).backlightEnabled = true ∧
      (handle_down_button s).screen_timeout = some (s.clock + SCREEN_TIMEOUT) ∧
      (handle_down_button s).toast_time = s.toast_time ∧
      (handle_down_button s).bake_temp = s.bake_temp ∧
      (handle_down_button s).bake_time = s.bake_time ∧
      (handle_down_button s).audio = s.audio) ∧
    (s.down_btn.cur = true → s.down_btn.prev = false → s.mode = 0 →
     s.running = false → ¬ s.screen_timeout = none →
      (handle_down_button s).toast_time = max (s.toast_time - TOAST_TIME_INC) 30) ∧
    (s.start_btn.cur = true → s.start_btn.prev = false → s.running = false →
     s.screen_timeout = none →
      (handle_start_button s).backlightEnabled = true ∧
      (handle_start_button s).screen_timeout = some (s.clock + SCREEN_TIMEOUT) ∧
      (handle_start_button s).running = false) ∧
    (s.start_btn.cur = true → s.start_btn.prev = false → s.running = false →
     ¬ s.screen_timeout = none →
      (handle_start_button s).running = true) := by
  refine ⟨fun hc hp hr hn => ?_, fun hc hp hr hn => ?_, fun hc hp hlp hr hn => ?_,
          fun hc hp hst => ?_, fun hc hp hst hm hr hn => ?_, fun hc hp hr hn => ?_,
          fun hc hp hm hr hn => ?_, fun hc hp hr hn => ?_, fun hc hp hr hn => ?_⟩
  · simp only [handle_mode_button]
    rw [if_pos ⟨hc, hp, hr⟩, if_pos hn]
    exact ⟨rfl, rfl, rfl, rfl, rfl⟩
  · simp only [handle_mode_button]
    rw [if_pos ⟨hc, hp, hr⟩, if_neg hn]
    exact ⟨rfl, rfl⟩
  · simp only [handle_up_button]
    rw [if_neg (by omega), if_pos ⟨hc, hp⟩, if_pos hn]
    exact ⟨rfl, rfl, rfl, rfl, rfl, rfl, rfl⟩
  · simp only [handle_up_button]
    rw [if_neg (by simp [hst]), if_neg (by simp [hc]), if_neg (by simp [hst])]
  · simp only [handle_up_button]
    rw [if_neg (by simp [hm]), if_neg (by simp [hc]), if_pos ⟨hc, hp, hst, hr⟩,
        if_neg hn, if_pos hm]
  · simp only [handle_down_button]
    rw [if_pos ⟨hc, hp, hr⟩, if_pos hn]
    exact ⟨rfl, rfl, rfl, rfl, rfl, rfl⟩
  · simp only [handle_down_button]
    rw [if_pos ⟨hc, hp, hr⟩, if_neg hn, if_pos hm]
  · simp only [handle_start_button]
    rw [if_pos ⟨hc, hp⟩, if_pos ⟨hr, hn⟩]
    exact ⟨rfl, rfl, hr⟩
  · simp only [handle_start_button]
    rw [if_pos ⟨hc, hp⟩, if_neg (by simp [hn]), if_pos hr]

/-- An idle state with the backlight off (nil deadline) and all four
buttons at a fresh press edge. -/
def asleepPressState : LoopState :=
  { initState with backlightEnabled := false, screen_timeout := none, clock := 40000
                   mode_btn := { prev := false, cur := true, stale := false, press_time_ms := 20 }
                   up_btn := { prev := false, cur := true, stale := false, press_time_ms := 20 }
                   down_btn := { prev := false, cur := true, stale := false, press_time_ms := 20 }
                   start_btn := { prev := false, cur := true, stale := false, press_time_ms := 20 } }

/-- The matching awake state (deadline armed). -/
def awakePressState : LoopState :=
  { asleepPressState with backlightEnabled := true, screen_timeout := some 70000 }

/-- An awake state with the Up button at a short-press release edge. -/
def upReleaseState : LoopState :=
  { initState with up_btn := { prev := true, cur := false, stale := false, press_time_ms := 0 } }

/-- The same release edge with the press already consumed by a
long press or a wake. -/
def upReleaseStaleState : LoopState :=
  { initState with up_btn := { prev := true, cur := false, stale := true, press_time_ms := 0 } }

theorem c6_screen_wake_consumes_press_witness :
    ((handle_mode_button asleepPressState).mode = asleepPressState.mode ∧
     (handle_mode_button asleepPressState).backlightEnabled = true) ∧
    (handle_mode_button awakePressState).mode = cycleModeVal awakePressState.mode ∧
    (handle_up_button asleepPressState).up_btn.stale = true ∧
    handle_up_button upReleaseStaleState = upReleaseStaleState ∧
    (handle_up_button upReleaseState).toast_time
        = min (upReleaseState.toast_time + TOAST_TIME_INC) 600 ∧
    (handle_down_button asleepPressState).toast_time = asleepPressState.toast_time ∧
    (handle_down_button awakePressState).toast_time
        = max (awakePressState.toast_time - TOAST_TIME_INC) 30 ∧
    (handle_start_button asleepPressState).running = false ∧
    (handle_start_button awakePressState).running = true := by
  refine ⟨⟨((c6_screen_wake_consumes_press asleepPressState).1 rfl rfl rfl rfl).2.2.1,
           ((c6_screen_wake_consumes_press asleepPressState).1 rfl rfl rfl rfl).1⟩,
          ((c6_screen_wake_consumes_press awakePressState).2.1 rfl rfl rfl (by decide)).1,
          ((c6_screen_wake_consumes_press asleepPressState).2.2.1 rfl rfl (by decide) rfl rfl).2.2.1,
          (c6_screen_wake_consumes_press upReleaseStaleState).2.2.2.1 rfl rfl rfl,
          (c6_screen_wake_consumes_press upReleaseState).2.2.2.2.1 rfl rfl rfl rfl rfl (by decide),
          ((c6_screen_wake_consumes_press asleepPressState).2.2.2.2.2.1 rfl rfl rfl rfl).2.2.1,
          (c6_screen_wake_consumes_press awakePressState).2.2.2.2.2.2.1 rfl rfl rfl rfl (by decide),
          ((c6_screen_wake_consumes_press asleepPressState).2.2.2.2.2.2.2.1 rfl rfl rfl rfl).2.2,
          (c6_screen_wake_consumes_press awakePressState).2.2.2.2.2.2.2.2 rfl rfl rfl (by decide)⟩

/-! ### C7 — audio scheduler mutual exclusion -/

/-- C7: a `beep` request made while a pulse is active is a no-op (the
state — buzzer, flag and pending off-deadline — is exactly unchanged,
so the original pulse is neither extended nor restarted and nothing is
queued); a fresh non-synchronous pulse turns the buzzer on immediately
and arms the one-shot off callback `ms` from now; and the
one-active-pulse discipline (`beeping` tracks exactly the pending
alarm) is preserved by both `beep` and the callback. -/
theorem c7_audio_pulse_exclusion :
    (∀ (a : Audio) (now ms : Int) (synchronus : Bool),
      a.beeping = true → beep a now ms synchronus = a) ∧
    (∀ (a : Audio) (now ms : Int), a.beeping = false →
      beep a now ms false =
        { beeping := true, buzzer := true, alarm := some (now + ms) }) ∧
    (∀ (a : Audio) (now ms now₂ ms₂ : Int) (synchronus₂ : Bool),
      a.beeping = false →
      beep (beep a now ms false) now₂ ms₂ synchronus₂ = beep a now ms false) ∧
    (∀ (a : Audio) (now ms : Int) (synchronus : Bool),
      (a.beeping = true ↔ ¬ a.alarm = none) →
      ((beep a now ms synchronus).beeping = true ↔
        ¬ (beep a now ms synchronus).alarm = none)) ∧
    (∀ a : Audio, (beep_callback a).beeping = false ∧
      (beep_callback a).buzzer = false ∧ (beep_callback a).alarm = none) := by
  refine ⟨fun a now ms sy h => by simp [beep, h],
          fun a now ms h => by simp [beep, h],
          fun a now ms now₂ ms₂ sy₂ h => by simp [beep, h],
          fun a now ms sy h => ?_,
          fun a => ⟨rfl, rfl, rfl⟩⟩
  by_cases hb : a.beeping = true
  · have hnoop : beep a now ms sy = a := by simp [beep, hb]
    rw [hnoop]
    exact h
  · simp only [Bool.not_eq_true] at hb
    cases sy
    · simp [beep, hb]
    · simp [beep, hb]
      simpa [hb] using h

theorem c7_audio_pulse_exclusion_witness :
    beep { beeping := true, buzzer := true, alarm := some 120 } 80 500 false
        = { beeping := true, buzzer := true, alarm := some 120 } ∧
    beep { beeping := false, buzzer := false, alarm := none } 0 50 false
        = { beeping := true, buzzer := true, alarm := some 50 } ∧
    beep (beep { beeping := false, buzzer := false, alarm := none } 0 200 false) 10 500 false
        = beep { beeping := false, buzzer := false, alarm := none } 0 200 false :=
  ⟨c7_audio_pulse_exclusion.1 _ 80 500 false rfl,
   c7_audio_pulse_exclusion.2.1 _ 0 50 rfl,
   c7_audio_pulse_exclusion.2.2.1 _ 0 200 10 500 false rfl⟩

/-! ### C8 — mode cycling wraps and is disabled while running -/

/-- C8: with the display awake, each Mode-button press edge while not
running advances the mode forward by one with wraparound
(`cycleModeVal`) and resets `setting_option` to 0; cycling three times
from any in-range mode returns it; a Mode press while running changes
nothing. -/
theorem c8_mode_cycling_wraparound (s : LoopState) (m : Nat) :
    (s.mode_btn.cur = true → s.mode_btn.prev = false → s.running = false →
     ¬ s.screen_timeout = none →
      (handle_mode_button s).mode = cycleModeVal s.mode ∧
      (handle_mode_button s).setting_option = 0) ∧
    (m < 3 → cycleModeVal m < 3 ∧ cycleModeVal (cycleModeVal (cycleModeVal m)) = m) ∧
    (s.running = true → handle_mode_button s = s) := by
  refine ⟨fun hc hp hr hn => ?_, fun hm => ?_, fun hr => ?_⟩
  · simp only [handle_mode_button]
    rw [if_pos ⟨hc, hp, hr⟩, if_neg hn]
    exact ⟨rfl, rfl⟩
  · constructor
    · exact Nat.mod_lt _ (by norm_num)
    · interval_cases m <;> rfl
  · simp only [handle_mode_button]
    rw [if_neg (by simp [hr])]

/-- An awake idle state in Bake mode with a Mode-button press edge. -/
def modePressState : LoopState :=
  { initState with mode := 1
                   mode_btn := { prev := false, cur := true, stale := false, press_time_ms := 20 } }

theorem c8_mode_cycling_wraparound_witness :
    ((handle_mode_button modePressState).mode = cycleModeVal modePressState.mode ∧
     (handle_mode_button modePressState).setting_option = 0) ∧
    (cycleModeVal 2 < 3 ∧ cycleModeVal (cycleModeVal (cycleModeVal 2)) = 2) ∧
    handle_mode_button { modePressState with running := true }
        = { modePressState with running := true } :=
  ⟨(c8_mode_cycling_wraparound modePressState 2).1 rfl rfl rfl (by decide),
   (c8_mode_cycling_wraparound modePressState 2).2.1 (by norm_num),
   (c8_mode_cycling_wraparound { modePressState with running := true } 2).2.2 rfl⟩

/-! ### C9 — the consumed (`stale`) flag suppresses exactly one release -/

/-- C9: the `stale` consumed flag survives the release-edge tick itself
(that is what suppresses the one short-press action fired on release)
and is cleared by the first `button_update` after the button has been
seen released, so it is false again on the next press; a long press in
Bake mode fires the setting-option toggle and sets the flag. -/
theorem c9_consumed_flag_cleared_on_release
    (b : ButtonState) (d₁ d₂ : Int) (raw : Bool) (s : LoopState) :
    ((button_update (button_update b false d₁) raw d₂).stale = false) ∧
    ((button_update b raw d₁).stale = true → b.stale = true ∧ b.cur = true) ∧
    (s.up_btn.cur = false → s.up_btn.prev = true → s.up_btn.stale = true →
      handle_up_button s = s) ∧
    (s.mode = 1 → s.up_btn.stale = false → LONG_PRESS_MS ≤ s.up_btn.press_time_ms →
     s.running = false →
      (handle_up_button s).up_btn.stale = true ∧
      (handle_up_button s).setting_option = (s.setting_option + 1) % 2 ∧
      (handle_up_button s).toast_time = s.toast_time ∧
      (handle_up_button s).bake_temp = s.bake_temp ∧
      (handle_up_button s).bake_time = s.bake_time) := by
  refine ⟨by simp [button_update], fun h => ?_, fun hc hp hst => ?_, fun hm hst hlp hr => ?_⟩
  · simpa [button_update, Bool.and_eq_true] using h
  · simp only [handle_up_button]
    rw [if_neg (by simp [hst]), if_neg (by simp [hc]), if_neg (by simp [hst])]
  · simp only [handle_up_button]
    rw [if_pos ⟨hm, hst, hlp, hr⟩]
    exact ⟨rfl, rfl, rfl, rfl, rfl⟩

/-- A Bake-mode state with the Up button held past the long-press
threshold. -/
def upLongPressState : LoopState :=
  { initState with mode := 1
                   up_btn := { prev := true, cur := true, stale := false, press_time_ms := 200 } }

theorem c9_consumed_flag_cleared_on_release_witness :
    (button_update (button_update button_init false 20) true 20).stale = false ∧
    handle_up_button upReleaseStaleState = upReleaseStaleState ∧
    ((handle_up_button upLongPressState).up_btn.stale = true ∧
     (handle_up_button upLongPressState).setting_option
        = (upLongPressState.setting_option + 1) % 2) :=
  ⟨(c9_consumed_flag_cleared_on_release button_init 20 20 true initState).1,
   (c9_consumed_flag_cleared_on_release button_init 20 20 true upReleaseStaleState).2.2.1
      rfl rfl rfl,
   ⟨((c9_consumed_flag_cleared_on_release button_init 20 20 true upLongPressState).2.2.2
      rfl rfl (by decide) rfl).1,
    ((c9_consumed_flag_cleared_on_release button_init 20 20 true upLongPressState).2.2.2
      rfl rfl (by decide) rfl).2.1⟩⟩

/-! ### C10 — the mode variable stays in range, table lookups in bounds -/

/-- A three-element list has an entry at every index below 3. -/
theorem get3_isSome {α : Type} (xs : List α) (h3 : xs.length = 3) (m : Nat)
    (hm : m < 3) : (xs.get? m).isSome = true := by
  rw [Option.isSome_iff_ne_none]
  intro hnone
  rw [List.get?_eq_none] at hnone
  omega

/-- Handler `handle_mode_button` keeps the mode below 3 (the wraparound modulo
makes the cycled value in-range unconditionally). -/
theorem handle_mode_button_mode_lt (s : LoopState) (h : s.mode < 3) :
    (handle_mode_button s).mode < 3 := by
  simp only [handle_mode_button]
  split_ifs
  · exact h
  · exact Nat.mod_lt _ (by norm_num)
  · exact h

/-- One full tick keeps the mode below 3. -/
theorem tick_mode_lt (s : LoopState) (i : TickInput) (h : s.mode < 3) :
    (tick s i).mode < 3 := by
  have h1 : (handle_mode_button (tick_inputs s i)).mode < 3 :=
    handle_mode_button_mode_lt _ (by rw [tick_inputs_mode]; exact h)
  simp only [tick, handle_buttons]
  split_ifs with hr
  · rw [countdown_step_mode, process_cycle_mode, handle_start_button_mode,
        handle_down_button_mode, handle_up_button_mode]
    exact h1
  · rw [handle_start_button_mode, handle_down_button_mode, handle_up_button_mode]
    exact h1

/-- C10: in every reachable state of the control loop the mode variable
is one of 0, 1, 2 — it starts at 0 and is only ever advanced through
the wraparound `cycleModeVal` — so the `modes[]` and `running_modes[]`
lookups performed by `draw_lcd` are always within bounds and the
out-of-range branch of `draw_lcd_top` is unreachable. -/
theorem c10_mode_index_in_bounds (l : List TickInput) :
    (runTicks initState l).mode < 3 ∧
    (modes.get? (runTicks initState l).mode).isSome = true ∧
    (running_modes.get? (runTicks initState l).mode).isSome = true ∧
    (draw_lcd_top (runTicks initState l)).isSome = true := by
  have hmode : ∀ (t : List TickInput) (s : LoopState), s.mode < 3 →
      (runTicks s t).mode < 3 := by
    intro t
    induction t with
    | nil => intro s h; exact h
    | cons i t ih => intro s h; rw [runTicks_cons]; exact ih _ (tick_mode_lt s i h)
  have hm : (runTicks initState l).mode < 3 := hmode l initState (by decide)
  refine ⟨hm, get3_isSome modes rfl _ hm, get3_isSome running_modes rfl _ hm, ?_⟩
  simp only [draw_lcd_top]
  split_ifs with h1 h2
  · exact get3_isSome modes rfl _ hm
  · exact get3_isSome running_modes rfl _ hm
  · generalize (runTicks initState l).heating_stage = st
    rcases st with _ | _ | _ | n
    · rfl
    · rfl
    · exact get3_isSome running_modes rfl _ hm
    · rfl

end SmartToaster
